import Mathlib

/-!
Shallow embedding of the social-media-tracker core (src/core/database.py,
src/core/collectors.py, src/core/report.py, src/web/app.py).

Modelling conventions:
* Each SQLite table is a `List` of rows held in rowid (insertion) order,
  which is the order an unordered `SELECT *` scans them in.
* `AUTOINCREMENT` primary keys are modelled by explicit per-table counters
  in the state; ids are handed out strictly increasing and never reused.
* Timestamps (`datetime.now().isoformat()` strings) are modelled as `Nat`
  values passed in as a `now` parameter; ISO-8601 strings compare
  chronologically as text, so `MAX`/`ORDER BY` on them is the `Nat` order.
* The sqlite3 connections never execute `PRAGMA foreign_keys = ON`, so the
  declared `FOREIGN KEY` clauses are not enforced; inserts are modelled as
  unconditional appends, exactly as the library behaves by default.
* Collaborator (platform API) responses are passed to the collector
  functions as explicit arguments; a fetched record that would raise while
  being processed (a malformed record) is modelled as `Option.none`.
-/

/-- Row of the `accounts` table (dataclass `Account` in database.py). -/
structure Account where
  id : Nat
  platform : String
  username : String
  display_name : String
  account_id : String
  follower_count : Nat
  following_count : Nat
  post_count : Nat
  bio : String
  created_at : Nat
  updated_at : Nat
  deriving Repr, DecidableEq

/-- Row of the `posts` table (dataclass `Post`). -/
structure Post where
  id : Nat
  account_id : Nat
  platform : String
  post_id : String
  post_type : String
  caption : String
  published_at : String
  url : String
  thumbnail_url : String
  created_at : Nat
  deriving Repr, DecidableEq

/-- Row of the `post_metrics` table (dataclass `PostMetrics`). -/
structure PostMetrics where
  id : Nat
  post_id : Nat
  collected_at : Nat
  views : Nat
  likes : Nat
  comments : Nat
  shares : Nat
  saves : Nat
  plays : Nat
  reach : Nat
  impressions : Nat
  deriving Repr, DecidableEq

/-- Row of the `account_metrics` table (dataclass `AccountMetrics`). -/
structure AccountMetrics where
  id : Nat
  account_id : Nat
  collected_at : Nat
  follower_count : Nat
  following_count : Nat
  post_count : Nat
  total_likes : Nat
  total_comments : Nat
  total_views : Nat
  deriving Repr, DecidableEq

/-- The four tables plus the AUTOINCREMENT counters. -/
structure DBState where
  accounts : List Account
  posts : List Post
  post_metrics : List PostMetrics
  account_metrics : List AccountMetrics
  next_account_id : Nat
  next_post_id : Nat
  next_post_metrics_id : Nat
  next_account_metrics_id : Nat
  deriving Repr, DecidableEq

/-- A freshly initialised database (`_init_db` creates empty tables;
SQLite AUTOINCREMENT hands out ids starting at 1). -/
def emptyDB : DBState :=
  { accounts := [], posts := [], post_metrics := [], account_metrics := []
    next_account_id := 1, next_post_id := 1
    next_post_metrics_id := 1, next_account_metrics_id := 1 }

/-- Field values supplied to `Database.add_account` (the id column is not
part of the INSERT; created_at/updated_at are filled with `now`). -/
structure AccountInput where
  platform : String
  username : String
  display_name : String
  account_id : String
  follower_count : Nat
  following_count : Nat
  post_count : Nat
  bio : String
  deriving Repr, DecidableEq

/-- `Database.add_account`: `INSERT OR REPLACE INTO accounts ...` under
`UNIQUE(platform, username)`. SQLite deletes any row conflicting on the
unique key and inserts a fresh row whose AUTOINCREMENT id is new; the
method returns `cursor.lastrowid`, i.e. the new id. -/
def add_account (s : DBState) (now : Nat) (a : AccountInput) : Nat × DBState :=
  let kept := s.accounts.filter fun b =>
    !(b.platform == a.platform && b.username == a.username)
  let row : Account :=
    { id := s.next_account_id, platform := a.platform, username := a.username
      display_name := a.display_name, account_id := a.account_id
      follower_count := a.follower_count, following_count := a.following_count
      post_count := a.post_count, bio := a.bio
      created_at := now, updated_at := now }
  (s.next_account_id,
   { s with accounts := kept ++ [row], next_account_id := s.next_account_id + 1 })

/-- `Database.get_account`: `SELECT * FROM accounts WHERE platform = ? AND
username = ?` with `fetchone()` (first row in scan order). -/
def get_account (s : DBState) (platform username : String) : Option Account :=
  s.accounts.find? fun a => a.platform == platform && a.username == username

/-- `Database.get_account_by_id`: lookup by primary key. -/
def get_account_by_id (s : DBState) (aid : Nat) : Option Account :=
  s.accounts.find? fun a => a.id == aid

/-- `Database.update_account`: `UPDATE accounts SET display_name = ?,
follower_count = ?, following_count = ?, post_count = ?, bio = ?,
updated_at = ? WHERE id = ?`. -/
def update_account (s : DBState) (now : Nat) (acc : Account) : DBState :=
  { s with accounts := s.accounts.map fun r =>
      if r.id == acc.id then
        { r with display_name := acc.display_name
                 follower_count := acc.follower_count
                 following_count := acc.following_count
                 post_count := acc.post_count
                 bio := acc.bio
                 updated_at := now }
      else r }

/-- `Database.delete_account`: four DELETE statements — post_metrics rows
whose post_id is in the account's posts, then those posts, then the
account's account_metrics, then the account row itself. -/
def delete_account (s : DBState) (aid : Nat) : DBState :=
  let owned := (s.posts.filter fun p => p.account_id == aid).map Post.id
  { s with
    post_metrics := s.post_metrics.filter fun m => !(owned.contains m.post_id)
    posts := s.posts.filter fun p => !(p.account_id == aid)
    account_metrics := s.account_metrics.filter fun m => !(m.account_id == aid)
    accounts := s.accounts.filter fun a => !(a.id == aid) }

/-- Field values supplied to `Database.add_post` (created_at := now). -/
structure PostInput where
  account_id : Nat
  platform : String
  post_id : String
  post_type : String
  caption : String
  published_at : String
  url : String
  thumbnail_url : String
  deriving Repr, DecidableEq

/-- `Database.add_post`: `INSERT OR IGNORE INTO posts ...` under
`UNIQUE(platform, post_id)`. On a fresh connection an ignored insert
leaves `cursor.lastrowid == 0`, and the method then SELECTs and returns
the existing row's id; otherwise it returns the new row's id. -/
def add_post (s : DBState) (now : Nat) (p : PostInput) : Nat × DBState :=
  match s.posts.find? (fun q => q.platform == p.platform && q.post_id == p.post_id) with
  | some q => (q.id, s)
  | none =>
    let row : Post :=
      { id := s.next_post_id, account_id := p.account_id, platform := p.platform
        post_id := p.post_id, post_type := p.post_type, caption := p.caption
        published_at := p.published_at, url := p.url
        thumbnail_url := p.thumbnail_url, created_at := now }
    (s.next_post_id,
     { s with posts := s.posts ++ [row], next_post_id := s.next_post_id + 1 })

/-- Field values supplied to `Database.add_post_metrics`. -/
structure PostMetricsInput where
  post_id : Nat
  collected_at : Nat
  views : Nat
  likes : Nat
  comments : Nat
  shares : Nat
  saves : Nat
  plays : Nat
  reach : Nat
  impressions : Nat
  deriving Repr, DecidableEq

/-- `Database.add_post_metrics`: a plain `INSERT INTO post_metrics ...`.
The declared FOREIGN KEY on post_id is not enforced (the code never issues
`PRAGMA foreign_keys = ON`), so the insert succeeds unconditionally. -/
def add_post_metrics (s : DBState) (m : PostMetricsInput) : Nat × DBState :=
  let row : PostMetrics :=
    { id := s.next_post_metrics_id, post_id := m.post_id
      collected_at := m.collected_at, views := m.views, likes := m.likes
      comments := m.comments, shares := m.shares, saves := m.saves
      plays := m.plays, reach := m.reach, impressions := m.impressions }
  (s.next_post_metrics_id,
   { s with post_metrics := s.post_metrics ++ [row]
            next_post_metrics_id := s.next_post_metrics_id + 1 })

/-- Field values supplied to `Database.add_account_metrics`. -/
structure AccountMetricsInput where
  account_id : Nat
  collected_at : Nat
  follower_count : Nat
  following_count : Nat
  post_count : Nat
  total_likes : Nat
  total_comments : Nat
  total_views : Nat
  deriving Repr, DecidableEq

/-- `Database.add_account_metrics`: plain `INSERT INTO account_metrics`. -/
def add_account_metrics (s : DBState) (m : AccountMetricsInput) : Nat × DBState :=
  let row : AccountMetrics :=
    { id := s.next_account_metrics_id, account_id := m.account_id
      collected_at := m.collected_at, follower_count := m.follower_count
      following_count := m.following_count, post_count := m.post_count
      total_likes := m.total_likes, total_comments := m.total_comments
      total_views := m.total_views }
  (s.next_account_metrics_id,
   { s with account_metrics := s.account_metrics ++ [row]
            next_account_metrics_id := s.next_account_metrics_id + 1 })

/-- Snapshots referencing a given post, in table (rowid) order
(`SELECT * FROM post_metrics WHERE post_id = ?`). -/
def snapshots_of (s : DBState) (pid : Nat) : List PostMetrics :=
  s.post_metrics.filter fun m => m.post_id == pid

/-- First row attaining the maximum collected_at in scan order; models
`ORDER BY collected_at DESC LIMIT 1` (SQLite does not specify which row
of a tie is emitted first; the embedding fixes the first one scanned). -/
def best_snapshot : List PostMetrics → Option PostMetrics
  | [] => none
  | m :: rest =>
    match best_snapshot rest with
    | none => some m
    | some b => if b.collected_at > m.collected_at then some b else some m

/-- `Database.get_latest_post_metrics`. -/
def get_latest_post_metrics (s : DBState) (pid : Nat) : Option PostMetrics :=
  best_snapshot (snapshots_of s pid)

/-- `MAX(collected_at)` over a list of snapshots (`NULL` when empty). -/
def max_collected : List PostMetrics → Option Nat
  | [] => none
  | m :: rest =>
    some (match max_collected rest with
          | none => m.collected_at
          | some v => max m.collected_at v)

/-- One output row of `Database.get_posts_with_latest_metrics`
(`p.*`, the joined snapshot columns, and the joined account columns). -/
structure BulkRow where
  post : Post
  pm : Option PostMetrics
  acct : Option Account
  deriving Repr, DecidableEq

/-- Rows the two LEFT JOINs produce for one post: the per-post subquery
computes `MAX(collected_at)`, and `post_metrics` is then joined on
`pm.post_id = p.id AND pm.collected_at = max_collected`, so every snapshot
attaining the maximum yields a row; a post with no snapshots keeps one
row with NULL metric columns. -/
def bulk_rows_for_post (s : DBState) (p : Post) : List BulkRow :=
  let snaps := snapshots_of s p.id
  let acct := s.accounts.find? fun a => a.id == p.account_id
  match max_collected snaps with
  | none => [{ post := p, pm := none, acct := acct }]
  | some v =>
    (snaps.filter fun m => m.collected_at == v).map
      fun m => { post := p, pm := some m, acct := acct }

/-- `Database.get_posts_with_latest_metrics`: optional account/platform
filters, the grouped-max LEFT JOIN, `ORDER BY p.published_at DESC`
(modelled as a stable merge sort) and `LIMIT ?`. -/
def get_posts_with_latest_metrics (s : DBState) (account_id : Option Nat)
    (platform : Option String) (lim : Nat) : List BulkRow :=
  let base := s.posts.filter fun p =>
    (match account_id with | none => true | some a => p.account_id == a) &&
    (match platform with | none => true | some pl => p.platform == pl)
  let rows := base.flatMap (bulk_rows_for_post s)
  (rows.mergeSort fun a b =>
    decide (b.post.published_at ≤ a.post.published_at)).take lim

/-- `countPosts` of the spec: number of posts rows with the identity. -/
def count_posts (s : DBState) (platform post_id : String) : Nat :=
  (s.posts.filter fun p => p.platform == platform && p.post_id == post_id).length

/-! ## Collector layer (src/core/collectors.py, BaseCollector) -/

/-- Normalized account record a collaborator's `fetch_account_info`
returns; each field is `Option` because the Python dict may miss keys
(`account_data.get(key, default)`). -/
structure AccountData where
  display_name : Option String
  account_id : Option String
  follower_count : Option Nat
  following_count : Option Nat
  post_count : Option Nat
  bio : Option String
  deriving Repr, DecidableEq

/-- Normalized post record a collaborator's `fetch_account_posts` yields
(`post_data.get(key, default)` per field). -/
structure PostData where
  post_id : Option String
  post_type : Option String
  caption : Option String
  published_at : Option String
  url : Option String
  thumbnail_url : Option String
  views : Option Nat
  likes : Option Nat
  comments : Option Nat
  shares : Option Nat
  saves : Option Nat
  plays : Option Nat
  reach : Option Nat
  impressions : Option Nat
  deriving Repr, DecidableEq

/-- Outcome of `BaseCollector.collect_account`: the resulting store state
and the returned value (the account's local id, or `none` when the
collaborator gave no account info). -/
structure CollectAccountResult where
  state : DBState
  account : Option Nat
  deriving Repr, DecidableEq

/-- `BaseCollector.collect_account` given the collaborator's
`fetch_account_info` response `info`. `none` → return `None` with no
store access. Existing account → mutate its summary fields from the
fetched dict and `update_account`; new account → build an `Account` from
the dict's defaults and `add_account`. Either way one `AccountMetrics`
snapshot is then appended with the account's current counters (the
dataclass defaults leave the `total_*` fields 0). -/
def collect_account (s : DBState) (platform username : String) (now : Nat)
    (info : Option AccountData) : CollectAccountResult :=
  match info with
  | none => { state := s, account := none }
  | some data =>
    match get_account s platform username with
    | some existing =>
      let updated : Account :=
        { existing with
          display_name := data.display_name.getD existing.display_name
          follower_count := data.follower_count.getD existing.follower_count
          following_count := data.following_count.getD existing.following_count
          post_count := data.post_count.getD existing.post_count
          bio := data.bio.getD existing.bio }
      let s1 := update_account s now updated
      let s2 := (add_account_metrics s1
        { account_id := existing.id, collected_at := now
          follower_count := updated.follower_count
          following_count := updated.following_count
          post_count := updated.post_count
          total_likes := 0, total_comments := 0, total_views := 0 }).2
      { state := s2, account := some existing.id }
    | none =>
      let input : AccountInput :=
        { platform := platform, username := username
          display_name := data.display_name.getD username
          account_id := data.account_id.getD ""
          follower_count := data.follower_count.getD 0
          following_count := data.following_count.getD 0
          post_count := data.post_count.getD 0
          bio := data.bio.getD "" }
      let r := add_account s now input
      let s2 := (add_account_metrics r.2
        { account_id := r.1, collected_at := now
          follower_count := input.follower_count
          following_count := input.following_count
          post_count := input.post_count
          total_likes := 0, total_comments := 0, total_views := 0 }).2
      { state := s2, account := some r.1 }

/-- The body of the per-record loop in `collect_posts`: `add_post` with
the record's fields, then `add_post_metrics` for the returned post id. -/
def process_record (s : DBState) (platform : String) (acc_id now : Nat)
    (r : PostData) : Nat × DBState :=
  let pr := add_post s now
    { account_id := acc_id, platform := platform
      post_id := r.post_id.getD "", post_type := r.post_type.getD "video"
      caption := r.caption.getD "", published_at := r.published_at.getD ""
      url := r.url.getD "", thumbnail_url := r.thumbnail_url.getD "" }
  let s2 := (add_post_metrics pr.2
    { post_id := pr.1, collected_at := now
      views := r.views.getD 0, likes := r.likes.getD 0
      comments := r.comments.getD 0, shares := r.shares.getD 0
      saves := r.saves.getD 0, plays := r.plays.getD 0
      reach := r.reach.getD 0, impressions := r.impressions.getD 0 }).2
  (pr.1, s2)

/-- The `for post_data in posts_data` loop. A malformed record (`none`)
raises; the exception aborts the loop, the local `posts` list is lost,
and the writes already committed (one transaction per store call) stay:
`.error st` carries the state at the raise point. -/
def process_records (s : DBState) (platform : String) (acc_id now : Nat) :
    List (Option PostData) → Except DBState (DBState × List Nat)
  | [] => .ok (s, [])
  | none :: _ => .error s
  | some r :: rest =>
    let pr := process_record s platform acc_id now r
    match process_records pr.2 platform acc_id now rest with
    | .error st => .error st
    | .ok (st, ids) => .ok (st, pr.1 :: ids)

/-- Outcome of `BaseCollector.collect_posts`: final state, the returned
list of collected post ids (`none` when an exception propagated out), and
whether `fetch_account_posts` was called at all. -/
structure CollectPostsResult where
  state : DBState
  returned : Option (List Nat)
  fetch_attempted : Bool
  deriving Repr, DecidableEq

/-- `BaseCollector.collect_posts` given the collaborator's
`fetch_account_posts` response `fetched`. No stored account for
(platform, username) → return `[]` before any fetch; an empty response is
falsy (`if not posts_data`) → return `[]`; otherwise run the loop. -/
def collect_posts (s : DBState) (platform username : String) (now : Nat)
    (fetched : List (Option PostData)) : CollectPostsResult :=
  match get_account s platform username with
  | none => { state := s, returned := some [], fetch_attempted := false }
  | some account =>
    if fetched.isEmpty then
      { state := s, returned := some [], fetch_attempted := true }
    else
      match process_records s platform account.id now fetched with
      | .error st => { state := st, returned := none, fetch_attempted := true }
      | .ok (st, ids) =>
        { state := st, returned := some ids, fetch_attempted := true }

/-- `fetch_account_info` can also raise (network error); `collect_all`
catches that. -/
inductive FetchOutcome (α : Type) where
  | raised : FetchOutcome α
  | value : α → FetchOutcome α
  deriving Repr, DecidableEq

/-- Outcome of `BaseCollector.collect_all` (the `result` dict): final
state, `success`, `result.account` and `result.posts`. -/
structure CollectAllResult where
  state : DBState
  success : Bool
  account : Option Nat
  posts : List Nat
  deriving Repr, DecidableEq

/-- `BaseCollector.collect_all`: collect the account; `None` →
failure message, no success. Then collect posts; any exception is caught
by the surrounding `try`, leaving `success = False` and `posts = []`
(the dict fields assigned before the raise stay). -/
def collect_all (s : DBState) (platform username : String) (now : Nat)
    (info : FetchOutcome (Option AccountData))
    (fetched : List (Option PostData)) : CollectAllResult :=
  match info with
  | .raised => { state := s, success := false, account := none, posts := [] }
  | .value i =>
    let r1 := collect_account s platform username now i
    match r1.account with
    | none => { state := r1.state, success := false, account := none, posts := [] }
    | some aid =>
      let r2 := collect_posts r1.state platform username now fetched
      match r2.returned with
      | none =>
        { state := r2.state, success := false, account := some aid, posts := [] }
      | some ids =>
        { state := r2.state, success := true, account := some aid, posts := ids }

/-! ## Report layer (src/core/report.py) and web layer (src/web/app.py) -/

/-- Round to 2 decimal places, as `round(x, 2)` does. The Python code
computes on binary floats; the embedding computes on exact rationals with
round-half-up, which agrees on all inputs whose value is not a floating
tie. -/
def round_to_two (q : ℚ) : ℚ := (round (q * 100) : ℚ) / 100

/-- `ReportGenerator._calc_engagement_rate`. -/
def calc_engagement_rate (likes comments followers : Nat) : ℚ :=
  if followers = 0 then 0
  else round_to_two (((likes : ℚ) + comments) / followers * 100)

/-- HTTP result of the delete endpoint: success payload or a 404 body. -/
inductive ApiResult where
  | ok
  | not_found
  deriving Repr, DecidableEq

/-- `api_delete_account` in web/app.py: look the id up first; missing →
respond 404 without touching the store; present → `delete_account`. -/
def api_delete_account (s : DBState) (aid : Nat) : DBState × ApiResult :=
  match get_account_by_id s aid with
  | none => (s, .not_found)
  | some _ => (delete_account s aid, .ok)

/-! ## Iteration helpers and concrete fixtures -/

/-- Folding a sequence of account upserts (each with its own fetched data
and timestamp) through `collect_account`. -/
def upsert_account_many (p u : String) (s : DBState) :
    List (AccountData × Nat) → DBState
  | [] => s
  | (d, t) :: rest =>
    upsert_account_many p u (collect_account s p u t (some d)).state rest

/-! ## Demo fixtures used by the closed witness theorems -/

/-- Collaborator account record used by the demos. -/
def demo_data : AccountData :=
  { display_name := some "Alice", account_id := some "ig1"
    follower_count := some 100, following_count := some 10
    post_count := some 5, bio := some "hi" }

/-- Store state after first collecting the demo account. -/
def demo_s1 : DBState :=
  (collect_account emptyDB "instagram" "alice" 1 (some demo_data)).state

/-- The account row demo_s1 holds for (instagram, alice). -/
def demo_acct : Account :=
  { id := 1, platform := "instagram", username := "alice"
    display_name := "Alice", account_id := "ig1", follower_count := 100
    following_count := 10, post_count := 5, bio := "hi"
    created_at := 1, updated_at := 1 }

/-- Two further collection rounds with changed counters. -/
def demo_ups : List (AccountData × Nat) :=
  [({ display_name := some "Alice2", account_id := none
      follower_count := some 150, following_count := none
      post_count := none, bio := none }, 2),
   ({ display_name := none, account_id := none
      follower_count := some 90, following_count := some 11
      post_count := some 6, bio := some "yo" }, 3)]

/-- C6 witness fixture: two accounts each owning a post with a snapshot
and an account snapshot. -/
def demo_del : DBState :=
  { accounts :=
      [{ id := 1, platform := "instagram", username := "a", display_name := "A"
         account_id := "", follower_count := 1, following_count := 1
         post_count := 1, bio := "", created_at := 1, updated_at := 1 },
       { id := 2, platform := "tiktok", username := "b", display_name := "B"
         account_id := "", follower_count := 2, following_count := 2
         post_count := 1, bio := "", created_at := 1, updated_at := 1 }]
    posts :=
      [{ id := 1, account_id := 1, platform := "instagram", post_id := "p1"
         post_type := "reel", caption := "", published_at := "t1", url := ""
         thumbnail_url := "", created_at := 1 },
       { id := 2, account_id := 2, platform := "tiktok", post_id := "p2"
         post_type := "video", caption := "", published_at := "t2", url := ""
         thumbnail_url := "", created_at := 1 }]
    post_metrics :=
      [{ id := 1, post_id := 1, collected_at := 2, views := 5, likes := 1
         comments := 0, shares := 0, saves := 0, plays := 0, reach := 0
         impressions := 0 },
       { id := 2, post_id := 2, collected_at := 2, views := 9, likes := 2
         comments := 0, shares := 0, saves := 0, plays := 0, reach := 0
         impressions := 0 }]
    account_metrics :=
      [{ id := 1, account_id := 1, collected_at := 2, follower_count := 1
         following_count := 1, post_count := 1, total_likes := 0
         total_comments := 0, total_views := 0 },
       { id := 2, account_id := 2, collected_at := 2, follower_count := 2
         following_count := 2, post_count := 1, total_likes := 0
         total_comments := 0, total_views := 0 }]
    next_account_id := 3, next_post_id := 3
    next_post_metrics_id := 3, next_account_metrics_id := 3 }

/-- Snapshot input referencing post id 1, used against a store that has
no posts at all. -/
def demo_orphan : PostMetricsInput :=
  { post_id := 1, collected_at := 7, views := 3, likes := 1, comments := 0
    shares := 0, saves := 0, plays := 0, reach := 0, impressions := 0 }

/-- Effect of running the per-record loop body over a list of valid
records: each is upserted and has its snapshot appended in order. -/
def run_valid_records (s : DBState) (platform : String) (acc_id now : Nat) :
    List PostData → DBState
  | [] => s
  | r :: rs =>
    run_valid_records (process_record s platform acc_id now r).2 platform acc_id now rs

/-- A collaborator post record all of whose fields are present. -/
def demo_valid (name : String) : PostData :=
  { post_id := some name, post_type := some "reel", caption := some "c"
    published_at := some name, url := none, thumbnail_url := none
    views := some 10, likes := some 2, comments := some 1, shares := none
    saves := none, plays := none, reach := none, impressions := none }

/-- Ten fetched records of which the second and the sixth are malformed. -/
def demo_fetched : List (Option PostData) :=
  [some (demo_valid "q1"), none, some (demo_valid "q3"),
   some (demo_valid "q4"), some (demo_valid "q5"), none,
   some (demo_valid "q7"), some (demo_valid "q8"),
   some (demo_valid "q9"), some (demo_valid "q10")]

/-- C3 counterexample fixture: one post with two snapshots sharing the
same (maximal) collected_at. -/
def c3_state : DBState :=
  { accounts :=
      [{ id := 1, platform := "instagram", username := "a", display_name := "A"
         account_id := "", follower_count := 0, following_count := 0
         post_count := 1, bio := "", created_at := 1, updated_at := 1 }]
    posts :=
      [{ id := 1, account_id := 1, platform := "instagram", post_id := "p1"
         post_type := "reel", caption := "", published_at := "t1", url := ""
         thumbnail_url := "", created_at := 1 }]
    post_metrics :=
      [{ id := 1, post_id := 1, collected_at := 5, views := 10, likes := 1
         comments := 0, shares := 0, saves := 0, plays := 0, reach := 0
         impressions := 0 },
       { id := 2, post_id := 1, collected_at := 5, views := 50, likes := 2
         comments := 0, shares := 0, saves := 0, plays := 0, reach := 0
         impressions := 0 }]
    account_metrics := []
    next_account_id := 2, next_post_id := 2
    next_post_metrics_id := 3, next_account_metrics_id := 1 }

/-! ## Helper lemmas -/

/-- `update_account` rewrites the matched row in place, so a lookup by
(platform, username) afterwards finds the same position, with the listed
fields rewritten. -/
theorem update_account_find (s : DBState) (now : Nat) (acc : Account)
    (p u : String) :
    get_account (update_account s now acc) p u =
      (get_account s p u).map fun r =>
        if r.id == acc.id then
          { r with display_name := acc.display_name
                   follower_count := acc.follower_count
                   following_count := acc.following_count
                   post_count := acc.post_count
                   bio := acc.bio
                   updated_at := now }
        else r := by
  unfold get_account update_account
  rw [List.find?_map]
  have hcomp : ((fun a : Account => a.platform == p && a.username == u) ∘ fun r =>
      if r.id == acc.id then
        { r with display_name := acc.display_name
                 follower_count := acc.follower_count
                 following_count := acc.following_count
                 post_count := acc.post_count
                 bio := acc.bio
                 updated_at := now }
      else r) = fun a : Account => a.platform == p && a.username == u := by
    funext r
    by_cases hr : r.id == acc.id <;> simp [Function.comp, hr]
  rw [hcomp]

/-- `add_account_metrics` does not touch the accounts table. -/
theorem get_account_add_metrics (s : DBState) (m : AccountMetricsInput)
    (p u : String) :
    get_account (add_account_metrics s m).2 p u = get_account s p u := rfl

/-- Upserting an existing (platform, username) through
`collect_account` keeps the row findable under the same local id, and the
call reports that id. -/
theorem collect_account_existing (s : DBState) (p u : String) (now : Nat)
    (d : AccountData) (a : Account) (h : get_account s p u = some a) :
    ∃ a', get_account (collect_account s p u now (some d)).state p u = some a' ∧
      a'.id = a.id ∧
      (collect_account s p u now (some d)).account = some a.id := by
  simp only [collect_account, h]
  rw [get_account_add_metrics, update_account_find, h, Option.map_some']
  exact ⟨_, rfl, by simp, trivial⟩

/-- `add_post` when the (platform, post_id) pair is already present. -/
theorem add_post_found (s : DBState) (n : Nat) (d : PostInput) (q : Post)
    (h : s.posts.find?
      (fun r => r.platform == d.platform && r.post_id == d.post_id) = some q) :
    add_post s n d = (q.id, s) := by
  unfold add_post
  rw [h]

/-- `add_post` when the (platform, post_id) pair is unseen. -/
theorem add_post_fresh (s : DBState) (n : Nat) (d : PostInput)
    (h : s.posts.find?
      (fun r => r.platform == d.platform && r.post_id == d.post_id) = none) :
    add_post s n d =
      (s.next_post_id,
       { s with
         posts := s.posts ++
           [{ id := s.next_post_id, account_id := d.account_id
              platform := d.platform, post_id := d.post_id
              post_type := d.post_type, caption := d.caption
              published_at := d.published_at, url := d.url
              thumbnail_url := d.thumbnail_url, created_at := n }]
         next_post_id := s.next_post_id + 1 }) := by
  unfold add_post
  rw [h]

/-! ## C1 — account identity stability -/

/-- C1: once (platform, username) has an account row with local id i, any
further sequence of collect_account upserts for that identity (whatever
display_name, counters or bio the collaborator reports, at whatever
times) leaves getAccount returning a row with the same local id i, and
one more upsert still reports id i. -/
theorem account_identity_stable (s : DBState) (p u : String) (a : Account)
    (h : get_account s p u = some a) (ups : List (AccountData × Nat))
    (d : AccountData) (t : Nat) :
    (get_account (upsert_account_many p u s ups) p u).map Account.id =
      some a.id ∧
    (collect_account (upsert_account_many p u s ups) p u t (some d)).account =
      some a.id := by
  induction ups generalizing s a with
  | nil =>
    obtain ⟨a', _, _, hacc⟩ := collect_account_existing s p u t d a h
    refine ⟨?_, hacc⟩
    rw [upsert_account_many, h, Option.map_some']
  | cons pr rest ih =>
    obtain ⟨d0, t0⟩ := pr
    obtain ⟨a', ha', hid, _⟩ := collect_account_existing s p u t0 d0 a h
    have hstep := ih _ _ ha'
    rw [hid] at hstep
    simpa only [upsert_account_many] using hstep

/-- C1 witness: the demo account is created with id 1 and keeps id 1
through two further upserts. -/
theorem account_identity_stable_witness :
    (get_account (upsert_account_many "instagram" "alice" demo_s1 demo_ups)
        "instagram" "alice").map Account.id = some 1 ∧
    (collect_account (upsert_account_many "instagram" "alice" demo_s1 demo_ups)
        "instagram" "alice" 4 (some demo_data)).account = some 1 :=
  account_identity_stable demo_s1 "instagram" "alice" demo_acct (by decide)
    demo_ups demo_data 4

/-! ## C2 — post upsert idempotence -/

/-- C2: upserting the same (platform, post_id) twice — whatever the other
field values of the second call — returns the id produced by the first
call, leaves the store exactly as after the first call (so no stored
field of the first row is overwritten), and keeps at most one row for
the pair. -/
theorem post_upsert_idempotent (s : DBState) (d d' : PostInput) (n1 n2 : Nat)
    (hplat : d'.platform = d.platform) (hpid : d'.post_id = d.post_id)
    (hcount : count_posts s d.platform d.post_id ≤ 1) :
    (add_post (add_post s n1 d).2 n2 d').1 = (add_post s n1 d).1 ∧
    (add_post (add_post s n1 d).2 n2 d').2 = (add_post s n1 d).2 ∧
    count_posts (add_post (add_post s n1 d).2 n2 d').2 d.platform d.post_id
      ≤ 1 := by
  have hpred : (fun r : Post => r.platform == d'.platform &&
      r.post_id == d'.post_id) =
      fun r : Post => r.platform == d.platform && r.post_id == d.post_id := by
    rw [hplat, hpid]
  cases hfind : s.posts.find?
      (fun r => r.platform == d.platform && r.post_id == d.post_id) with
  | some q =>
    have h1 := add_post_found s n1 d q hfind
    have h2 : add_post s n2 d' = (q.id, s) := by
      unfold add_post
      rw [hpred, hfind]
    rw [h1, h2]
    exact ⟨rfl, rfl, hcount⟩
  | none =>
    have h1 := add_post_fresh s n1 d hfind
    have hnomem := List.find?_eq_none.mp hfind
    set row : Post :=
      { id := s.next_post_id, account_id := d.account_id
        platform := d.platform, post_id := d.post_id
        post_type := d.post_type, caption := d.caption
        published_at := d.published_at, url := d.url
        thumbnail_url := d.thumbnail_url, created_at := n1 } with hrow
    have hposts1 : (add_post s n1 d).2.posts = s.posts ++ [row] := by rw [h1]
    have h2 : add_post (add_post s n1 d).2 n2 d' =
        (row.id, (add_post s n1 d).2) := by
      refine add_post_found _ n2 d' row ?_
      rw [hplat, hpid, hposts1, List.find?_append, hfind]
      simp [hrow]
    rw [h2]
    refine ⟨by rw [h1, hrow], rfl, ?_⟩
    have hfilter : s.posts.filter
        (fun r => r.platform == d.platform && r.post_id == d.post_id) = [] := by
      rw [List.filter_eq_nil_iff]
      intro x hx
      simpa using hnomem x hx
    show count_posts (add_post s n1 d).2 d.platform d.post_id ≤ 1
    unfold count_posts
    rw [hposts1]
    simp only [List.filter_append, hfilter, List.nil_append]
    simp [hrow]

/-- C2 witness: a concrete double upsert of the pair (instagram, x1) with
different content the second time. -/
theorem post_upsert_idempotent_witness :
    (add_post (add_post emptyDB 3
        { account_id := 1, platform := "instagram", post_id := "x1"
          post_type := "reel", caption := "c", published_at := "t"
          url := "u", thumbnail_url := "" }).2 4
        { account_id := 2, platform := "instagram", post_id := "x1"
          post_type := "video", caption := "other", published_at := "t2"
          url := "u2", thumbnail_url := "th" }).1 =
      (add_post emptyDB 3
        { account_id := 1, platform := "instagram", post_id := "x1"
          post_type := "reel", caption := "c", published_at := "t"
          url := "u", thumbnail_url := "" }).1 ∧
    (add_post (add_post emptyDB 3
        { account_id := 1, platform := "instagram", post_id := "x1"
          post_type := "reel", caption := "c", published_at := "t"
          url := "u", thumbnail_url := "" }).2 4
        { account_id := 2, platform := "instagram", post_id := "x1"
          post_type := "video", caption := "other", published_at := "t2"
          url := "u2", thumbnail_url := "th" }).2 =
      (add_post emptyDB 3
        { account_id := 1, platform := "instagram", post_id := "x1"
          post_type := "reel", caption := "c", published_at := "t"
          url := "u", thumbnail_url := "" }).2 ∧
    count_posts (add_post (add_post emptyDB 3
        { account_id := 1, platform := "instagram", post_id := "x1"
          post_type := "reel", caption := "c", published_at := "t"
          url := "u", thumbnail_url := "" }).2 4
        { account_id := 2, platform := "instagram", post_id := "x1"
          post_type := "video", caption := "other", published_at := "t2"
          url := "u2", thumbnail_url := "th" }).2 "instagram" "x1" ≤ 1 :=
  post_upsert_idempotent emptyDB
    { account_id := 1, platform := "instagram", post_id := "x1"
      post_type := "reel", caption := "c", published_at := "t"
      url := "u", thumbnail_url := "" }
    { account_id := 2, platform := "instagram", post_id := "x1"
      post_type := "video", caption := "other", published_at := "t2"
      url := "u2", thumbnail_url := "th" } 3 4 rfl rfl (by decide)

/-! ## C4 — step-1 failure atomicity -/

/-- C4: when the collaborator's account-info fetch raises or returns
nothing, collect_all ends unsuccessfully and the store state — all four
tables and all id counters — is exactly what it was before the attempt. -/
theorem step1_failure_atomic (s : DBState) (p u : String) (now : Nat)
    (info : FetchOutcome (Option AccountData))
    (fetched : List (Option PostData))
    (h : info = .raised ∨ info = .value none) :
    (collect_all s p u now info fetched).state = s ∧
    (collect_all s p u now info fetched).success = false := by
  rcases h with h | h <;> subst h <;> exact ⟨rfl, rfl⟩

/-- C4 witness: a concrete attempt whose account-info fetch returned
nothing leaves the empty store empty and fails. -/
theorem step1_failure_atomic_witness :
    (collect_all emptyDB "tiktok" "bob" 5 (.value none) [none]).state =
      emptyDB ∧
    (collect_all emptyDB "tiktok" "bob" 5 (.value none) [none]).success =
      false :=
  step1_failure_atomic emptyDB "tiktok" "bob" 5 (.value none) [none]
    (Or.inr rfl)

/-! ## C10 — missing-account guard in collect_posts -/

/-- C10: when the store holds no account for (platform, username),
collect_posts returns the empty list, leaves the store untouched, and
never reaches the post fetch from the collaborator; so post snapshots
are only ever appended on behalf of an account already in the store. -/
theorem collect_posts_missing_account (s : DBState) (p u : String)
    (now : Nat) (fetched : List (Option PostData))
    (h : get_account s p u = none) :
    collect_posts s p u now fetched =
      { state := s, returned := some [], fetch_attempted := false } := by
  unfold collect_posts
  rw [h]

/-- C10 witness: collecting posts for an account the empty store does not
know is a complete no-op. -/
theorem collect_posts_missing_account_witness :
    collect_posts emptyDB "instagram" "ghost" 2 [none, none] =
      { state := emptyDB, returned := some [], fetch_attempted := false } :=
  collect_posts_missing_account emptyDB "instagram" "ghost" 2 [none, none]
    rfl

/-! ## C6 — cascade delete with frame condition -/

/-- C6: delete_account removes exactly the account row with the given id,
every post owned by it, every post_metrics row referencing one of those
posts, and every account_metrics row referencing it; every other row of
all four tables survives unchanged. -/
theorem delete_account_cascade_frame (s : DBState) (aid : Nat) :
    (∀ a : Account, a ∈ (delete_account s aid).accounts ↔
      a ∈ s.accounts ∧ a.id ≠ aid) ∧
    (∀ p : Post, p ∈ (delete_account s aid).posts ↔
      p ∈ s.posts ∧ p.account_id ≠ aid) ∧
    (∀ m : PostMetrics, m ∈ (delete_account s aid).post_metrics ↔
      m ∈ s.post_metrics ∧
        ∀ q ∈ s.posts, q.account_id = aid → m.post_id ≠ q.id) ∧
    (∀ m : AccountMetrics, m ∈ (delete_account s aid).account_metrics ↔
      m ∈ s.account_metrics ∧ m.account_id ≠ aid) := by
  refine ⟨fun a => ?_, fun p => ?_, fun m => ?_, fun m => ?_⟩
  · simp [delete_account, List.mem_filter]
  · simp [delete_account, List.mem_filter]
  · have hc : ∀ (L : List Nat) (x : Nat), (L.contains x = false) ↔ x ∉ L := by
      intro L x
      constructor
      · intro h hx
        simp [List.elem_iff] at h
        exact h hx
      · intro h
        simp [List.elem_iff, h]
    constructor
    · intro hmem
      have h1 : m ∈ s.post_metrics ∧
          ((s.posts.filter fun p => p.account_id == aid).map
            Post.id).contains m.post_id = false := by
        simpa [delete_account, List.mem_filter] using hmem
      refine ⟨h1.1, fun q hq hqa => ?_⟩
      intro heq
      have hnot := (hc _ _).mp h1.2
      exact hnot (List.mem_map.mpr
        ⟨q, List.mem_filter.mpr ⟨hq, by simp [hqa]⟩, heq.symm⟩)
    · rintro ⟨hm, hall⟩
      have hnotin : m.post_id ∉
          (s.posts.filter fun p => p.account_id == aid).map Post.id := by
        intro hx
        obtain ⟨q, hq, hid⟩ := List.mem_map.mp hx
        have hq' := List.mem_filter.mp hq
        exact hall q hq'.1 (by simpa using hq'.2) hid.symm
      show m ∈ (delete_account s aid).post_metrics
      simp only [delete_account]
      refine List.mem_filter.mpr ⟨hm, ?_⟩
      rw [Bool.not_eq_true', hc]
      exact hnotin
  · simp [delete_account, List.mem_filter]

/-- C6 witness: instantiating the frame clause at the other account's
snapshot row in the demo store. -/
theorem delete_account_cascade_frame_witness :
    ({ id := 2, post_id := 2, collected_at := 2, views := 9, likes := 2,
       comments := 0, shares := 0, saves := 0, plays := 0, reach := 0,
       impressions := 0 } : PostMetrics) ∈
        (delete_account demo_del 1).post_metrics ↔
    ({ id := 2, post_id := 2, collected_at := 2, views := 9, likes := 2,
       comments := 0, shares := 0, saves := 0, plays := 0, reach := 0,
       impressions := 0 } : PostMetrics) ∈ demo_del.post_metrics ∧
      ∀ q ∈ demo_del.posts, q.account_id = 1 →
        (2 : Nat) ≠ q.id :=
  (delete_account_cascade_frame demo_del 1).2.2.1
    { id := 2, post_id := 2, collected_at := 2, views := 9, likes := 2,
      comments := 0, shares := 0, saves := 0, plays := 0, reach := 0,
      impressions := 0 }

/-! ## C7 — snapshot referential integrity -/

/-- C7, evaluated at the failing input: on a fresh store with zero posts,
add_post_metrics for post id 1 does not fail — it returns the new
snapshot id 1 and stores an orphaned row, because the sqlite3 connection
never enables foreign-key enforcement. -/
theorem add_post_metrics_orphan_succeeds :
    emptyDB.posts = [] ∧
    (add_post_metrics emptyDB demo_orphan).1 = 1 ∧
    (add_post_metrics emptyDB demo_orphan).2.post_metrics =
      [{ id := 1, post_id := 1, collected_at := 7, views := 3, likes := 1,
         comments := 0, shares := 0, saves := 0, plays := 0, reach := 0,
         impressions := 0 }] := by
  refine ⟨rfl, rfl, rfl⟩

/-! ## C8 — deleteAccount on a missing id -/

/-- C8 counterexample: the store-level delete_account called with an id
the empty store does not hold returns successfully with the state
untouched — a silent no-op, not a NotFound failure. -/
theorem delete_account_missing_silent_noop :
    delete_account emptyDB 1 = emptyDB := by decide

/-- C8 amended: for a missing id the store-level delete_account is a
silent no-op on the accounts table, and the NotFound outcome is produced
one layer up — the web endpoint answers 404 without touching the store. -/
theorem delete_missing_account_behavior (s : DBState) (aid : Nat)
    (h : get_account_by_id s aid = none) :
    api_delete_account s aid = (s, ApiResult.not_found) ∧
    (delete_account s aid).accounts = s.accounts := by
  constructor
  · unfold api_delete_account
    rw [h]
  · have h' : s.accounts.find? (fun a => a.id == aid) = none := h
    have hnomem := List.find?_eq_none.mp h'
    show s.accounts.filter (fun a => !(a.id == aid)) = s.accounts
    rw [List.filter_eq_self]
    intro a ha
    simpa using hnomem a ha

/-- C8 witness: deleting id 1 through the endpoint on the empty store. -/
theorem delete_missing_account_behavior_witness :
    api_delete_account emptyDB 1 = (emptyDB, ApiResult.not_found) ∧
    (delete_account emptyDB 1).accounts = emptyDB.accounts :=
  delete_missing_account_behavior emptyDB 1 rfl

/-! ## C9 — engagement rate -/

/-- C9: the engagement rate is (likes + comments) / followers * 100
rounded to 2 decimal places for positive follower counts, is 0 when the
follower count is 0, and takes the two documented values. -/
theorem engagement_rate_correct :
    (∀ likes comments : Nat, calc_engagement_rate likes comments 0 = 0) ∧
    (∀ likes comments followers : Nat, followers ≠ 0 →
      calc_engagement_rate likes comments followers =
        (round ((((likes : ℚ) + comments) / followers * 100) * 100) : ℚ) /
          100) ∧
    calc_engagement_rate 50 10 0 = 0 ∧
    calc_engagement_rate 50 10 1000 = 6 := by
  refine ⟨fun l c => ?_, fun l c f hf => ?_, ?_, ?_⟩
  · simp [calc_engagement_rate]
  · simp [calc_engagement_rate, hf, round_to_two]
  · simp [calc_engagement_rate]
  · have h6 : (((50 : ℕ) : ℚ) + ((10 : ℕ) : ℚ)) / ((1000 : ℕ) : ℚ) * 100 = 6 := by
      norm_num
    simp only [calc_engagement_rate, round_to_two]
    norm_num [h6]

/-- C9 witness: the nonzero-followers clause applied at (50, 10, 1000). -/
theorem engagement_rate_correct_witness :
    calc_engagement_rate 50 10 1000 =
      (round ((((50 : ℚ) + 10) / 1000 * 100) * 100) : ℚ) / 100 := by
  have h := engagement_rate_correct.2.1 50 10 1000 (by norm_num)
  simpa using h

/-! ## C5 — per-post failure containment -/

/-- Processing a batch whose first malformed record sits after a prefix
of valid records raises at that record, with exactly the prefix's writes
committed. -/
theorem process_records_abort (platform : String)
    (acc_id now : Nat) (rest : List (Option PostData)) :
    ∀ (pre : List PostData) (s : DBState),
      process_records s platform acc_id now
          (pre.map Option.some ++ none :: rest) =
        .error (run_valid_records s platform acc_id now pre) := by
  intro pre
  induction pre with
  | nil => intro s; rfl
  | cons r rs ih =>
    intro s
    show process_records s platform acc_id now
        (some r :: (rs.map Option.some ++ none :: rest)) = _
    rw [process_records, ih]
    rfl

/-- C5 counterexample: an attempt whose account step succeeds but whose
batch of 10 fetched posts holds 2 malformed records does not complete
with 8 posts — it ends unsuccessfully reporting no posts at all. -/
theorem malformed_posts_attempt_fails :
    (collect_all emptyDB "instagram" "alice" 2 (.value (some demo_data))
        demo_fetched).success = false ∧
    (collect_all emptyDB "instagram" "alice" 2 (.value (some demo_data))
        demo_fetched).posts = [] := by
  decide

/-- Outcome of collect_posts once the account lookup has succeeded. -/
theorem collect_posts_found (s : DBState) (p u : String) (now : Nat)
    (fetched : List (Option PostData)) (a : Account)
    (h : get_account s p u = some a) :
    collect_posts s p u now fetched =
      if fetched.isEmpty then
        { state := s, returned := some [], fetch_attempted := true }
      else
        match process_records s p a.id now fetched with
        | .error st => { state := st, returned := none, fetch_attempted := true }
        | .ok (st, ids) =>
          { state := st, returned := some ids, fetch_attempted := true } := by
  unfold collect_posts
  rw [h]

/-- Outcome of collect_all once the account step has produced an id. -/
theorem collect_all_resolved (s : DBState) (p u : String) (now : Nat)
    (d : AccountData) (aid : Nat)
    (h : (collect_account s p u now (some d)).account = some aid)
    (fetched : List (Option PostData)) :
    collect_all s p u now (.value (some d)) fetched =
      (match (collect_posts (collect_account s p u now (some d)).state
          p u now fetched).returned with
       | none =>
         { state := (collect_posts (collect_account s p u now (some d)).state
             p u now fetched).state
           success := false, account := some aid, posts := [] }
       | some ids =>
         { state := (collect_posts (collect_account s p u now (some d)).state
             p u now fetched).state
           success := true, account := some aid, posts := ids }) := by
  unfold collect_all
  simp only [h]

/-- C5 amended: the first malformed record aborts the batch — the valid
records before it are upserted with their snapshots (those writes stay),
nothing at or after the malformed record is processed, and the attempt
ends unsuccessfully with an empty posts list. -/
theorem malformed_post_aborts_batch (s : DBState) (p u : String) (now : Nat)
    (d : AccountData) (a : Account) (pre : List PostData)
    (rest : List (Option PostData))
    (hacct : (collect_account s p u now (some d)).account = some a.id)
    (hfind : get_account (collect_account s p u now (some d)).state p u =
      some a) :
    (collect_all s p u now (.value (some d))
        (pre.map Option.some ++ none :: rest)).success = false ∧
    (collect_all s p u now (.value (some d))
        (pre.map Option.some ++ none :: rest)).posts = [] ∧
    (collect_all s p u now (.value (some d))
        (pre.map Option.some ++ none :: rest)).state =
      run_valid_records (collect_account s p u now (some d)).state p a.id now pre := by
  have hne : (pre.map Option.some ++ none :: rest).isEmpty = false := by
    cases pre <;> rfl
  have hcp : collect_posts (collect_account s p u now (some d)).state p u now
      (pre.map Option.some ++ none :: rest) =
      { state :=
          run_valid_records (collect_account s p u now (some d)).state p a.id now pre
        returned := none, fetch_attempted := true } := by
    rw [collect_posts_found _ p u now _ a hfind, hne,
      if_neg Bool.false_ne_true,
      process_records_abort p a.id now rest pre]
  rw [collect_all_resolved s p u now d a.id hacct
    (pre.map Option.some ++ none :: rest)]
  simp only [hcp]
  refine ⟨?_, ?_, ?_⟩ <;> trivial

/-- C5 witness: one valid record before the malformed one; the attempt
fails, reports no posts, and keeps exactly the prefix's writes. -/
theorem malformed_post_aborts_batch_witness :
    (collect_all emptyDB "instagram" "alice" 1 (.value (some demo_data))
        ([demo_valid "q1"].map Option.some ++
          none :: [some (demo_valid "q3")])).success = false ∧
    (collect_all emptyDB "instagram" "alice" 1 (.value (some demo_data))
        ([demo_valid "q1"].map Option.some ++
          none :: [some (demo_valid "q3")])).posts = [] ∧
    (collect_all emptyDB "instagram" "alice" 1 (.value (some demo_data))
        ([demo_valid "q1"].map Option.some ++
          none :: [some (demo_valid "q3")])).state =
      run_valid_records
        (collect_account emptyDB "instagram" "alice" 1
          (some demo_data)).state
        "instagram" demo_acct.id 1 [demo_valid "q1"] :=
  malformed_post_aborts_batch emptyDB "instagram" "alice" 1 demo_data
    demo_acct [demo_valid "q1"] [some (demo_valid "q3")]
    (by decide) (by decide)

/-! ## C3 — latest-snapshot resolution -/

/-- A non-empty snapshot list always yields a best row. -/
theorem best_snapshot_isSome (a : PostMetrics) (t : List PostMetrics) :
    (best_snapshot (a :: t)).isSome = true := by
  rw [best_snapshot]
  cases best_snapshot t with
  | none => rfl
  | some b =>
    show (if b.collected_at > a.collected_at then some b else some a).isSome =
      true
    by_cases hgt : b.collected_at > a.collected_at
    · rw [if_pos hgt]; rfl
    · rw [if_neg hgt]; rfl

/-- best_snapshot returns an element of the list attaining the maximum
collected_at. -/
theorem best_snapshot_spec :
    ∀ (l : List PostMetrics) (m : PostMetrics), best_snapshot l = some m →
      m ∈ l ∧ ∀ x ∈ l, x.collected_at ≤ m.collected_at := by
  intro l
  induction l with
  | nil => intro m h; cases h
  | cons a t ih =>
    intro m h
    rw [best_snapshot] at h
    cases ht : best_snapshot t with
    | none =>
      rw [ht] at h
      replace h : some a = some m := h
      cases h
      cases t with
      | nil =>
        refine ⟨List.mem_singleton.mpr rfl, fun x hx => ?_⟩
        rw [List.mem_singleton.mp hx]
      | cons b t' =>
        have hs := best_snapshot_isSome b t'
        rw [ht] at hs
        simp at hs
    | some b =>
      rw [ht] at h
      replace h : (if b.collected_at > a.collected_at then some b else some a)
          = some m := h
      obtain ⟨hbmem, hbmax⟩ := ih b ht
      by_cases hgt : b.collected_at > a.collected_at
      · rw [if_pos hgt] at h
        cases h
        refine ⟨List.mem_cons_of_mem a hbmem, fun x hx => ?_⟩
        rcases List.mem_cons.mp hx with hx | hx
        · exact hx ▸ le_of_lt hgt
        · exact hbmax x hx
      · rw [if_neg hgt] at h
        cases h
        refine ⟨List.mem_cons_self a t, fun x hx => ?_⟩
        rcases List.mem_cons.mp hx with hx | hx
        · exact hx ▸ le_refl _
        · exact le_trans (hbmax x hx) (not_lt.mp hgt)

/-- Every row the join produces for a post carries that post. -/
theorem bulk_rows_post_eq (s : DBState) (q : Post) :
    ∀ r ∈ bulk_rows_for_post s q, r.post = q := by
  intro r hr
  cases hmc : max_collected (snapshots_of s q.id) with
  | none =>
    simp only [bulk_rows_for_post, hmc] at hr
    rw [List.mem_singleton.mp hr]
  | some v =>
    simp only [bulk_rows_for_post, hmc] at hr
    obtain ⟨m, _, hrm⟩ := List.mem_map.mp hr
    rw [← hrm]

/-- In a table whose post ids are pairwise distinct, the joined rows
mentioning a given post's id are exactly that post's own rows. -/
theorem countP_flatMap_bulk (s : DBState) :
    ∀ (L : List Post) (p : Post), p ∈ L → (L.map Post.id).Nodup →
      ((L.flatMap (bulk_rows_for_post s)).countP
        fun r => r.post.id == p.id) = (bulk_rows_for_post s p).length := by
  intro L
  induction L with
  | nil => intro p hp; cases hp
  | cons q T ih =>
    intro p hp hnd
    rw [List.map_cons, List.nodup_cons] at hnd
    obtain ⟨hqnin, hnd'⟩ := hnd
    rw [List.flatMap_cons, List.countP_append]
    rcases List.mem_cons.mp hp with hpq | hpT
    · subst hpq
      have h1 : ((bulk_rows_for_post s p).countP
          fun r => r.post.id == p.id) = (bulk_rows_for_post s p).length :=
        List.countP_eq_length.mpr fun r hr => by
          rw [bulk_rows_post_eq s p r hr]
          simp
      have h2 : ((T.flatMap (bulk_rows_for_post s)).countP
          fun r => r.post.id == p.id) = 0 :=
        List.countP_eq_zero.mpr fun r hr => by
          obtain ⟨q', hq', hrq'⟩ := List.mem_flatMap.mp hr
          rw [bulk_rows_post_eq s q' r hrq']
          simp only [beq_iff_eq]
          intro he
          exact hqnin (he ▸ List.mem_map_of_mem Post.id hq')
      rw [h1, h2, Nat.add_zero]
    · have hqp : q.id ≠ p.id := fun he =>
        hqnin (he ▸ List.mem_map_of_mem Post.id hpT)
      have h1 : ((bulk_rows_for_post s q).countP
          fun r => r.post.id == p.id) = 0 :=
        List.countP_eq_zero.mpr fun r hr => by
          rw [bulk_rows_post_eq s q r hr]
          simpa using hqp
      rw [h1, ih p hpT hnd', Nat.zero_add]

/-- With no account or platform filter, the bulk query is the joined row
list sorted by published_at (descending) and truncated. -/
theorem get_posts_no_filter (s : DBState) (lim : Nat) :
    get_posts_with_latest_metrics s none none lim =
      ((s.posts.flatMap (bulk_rows_for_post s)).mergeSort fun a b =>
        decide (b.post.published_at ≤ a.post.published_at)).take lim := by
  unfold get_posts_with_latest_metrics
  have hfil : s.posts.filter (fun p =>
      (match (none : Option Nat) with
       | none => true
       | some a => p.account_id == a) &&
      (match (none : Option String) with
       | none => true
       | some pl => p.platform == pl)) = s.posts :=
    List.filter_eq_self.mpr fun a _ => rfl
  rw [hfil]

/-- C3 counterexample: with one post whose two snapshots tie on the
maximal collected_at, the bulk query emits two rows for that single post
— not one deterministic row per post. -/
theorem latest_metrics_tie_duplicates :
    c3_state.posts.length = 1 ∧
    (get_posts_with_latest_metrics c3_state none none 50).length = 2 := by
  refine ⟨rfl, ?_⟩
  rw [get_posts_no_filter]
  have hperm := List.mergeSort_perm
    (c3_state.posts.flatMap (bulk_rows_for_post c3_state))
    (fun a b => decide (b.post.published_at ≤ a.post.published_at))
  have hlen : (c3_state.posts.flatMap
      (bulk_rows_for_post c3_state)).length = 2 := by decide
  rw [List.take_of_length_le (by rw [hperm.length_eq, hlen]; norm_num),
    hperm.length_eq, hlen]

/-- C3 amended: the single-form query returns a snapshot with maximal
collected_at among the post's snapshots (which of several tied rows is
unspecified — there is no secondary ORDER BY on id); the unfiltered bulk
form contributes, for each post of an id-unique table, one row per
snapshot attaining that post's maximal collected_at — exactly one row
when the maximum is uniquely attained, duplicate rows on ties, and one
null-metrics row when the post has no snapshots. -/
theorem latest_snapshot_resolution :
    (∀ (s : DBState) (pid : Nat) (m : PostMetrics),
      get_latest_post_metrics s pid = some m →
        m ∈ snapshots_of s pid ∧
        ∀ x ∈ snapshots_of s pid, x.collected_at ≤ m.collected_at) ∧
    (∀ (s : DBState) (lim : Nat) (p : Post), p ∈ s.posts →
      (s.posts.map Post.id).Nodup →
      (s.posts.flatMap (bulk_rows_for_post s)).length ≤ lim →
      ((get_posts_with_latest_metrics s none none lim).countP
        fun r => r.post.id == p.id) = (bulk_rows_for_post s p).length) ∧
    (∀ (s : DBState) (p : Post) (v : Nat),
      max_collected (snapshots_of s p.id) = some v →
      (bulk_rows_for_post s p).length =
        ((snapshots_of s p.id).filter
          fun m => m.collected_at == v).length) := by
  refine ⟨?_, ?_, ?_⟩
  · intro s pid m h
    exact best_snapshot_spec _ m h
  · intro s lim p hp hnd hlim
    rw [get_posts_no_filter]
    have hperm := List.mergeSort_perm (s.posts.flatMap (bulk_rows_for_post s))
      (fun a b => decide (b.post.published_at ≤ a.post.published_at))
    rw [List.take_of_length_le (by rw [hperm.length_eq]; exact hlim),
      List.Perm.countP_eq (fun r => r.post.id == p.id) hperm]
    exact countP_flatMap_bulk s s.posts p hp hnd
  · intro s p v hv
    simp only [bulk_rows_for_post, hv]
    rw [List.length_map]

/-- C3 amended witness: in the tie fixture, the single post accounts for
both of the bulk query's rows — as many rows as snapshots attaining the
maximal collected_at. -/
theorem latest_snapshot_resolution_witness :
    ((get_posts_with_latest_metrics c3_state none none 50).countP
      fun r => r.post.id ==
        ({ id := 1, account_id := 1, platform := "instagram", post_id := "p1",
           post_type := "reel", caption := "", published_at := "t1", url := "",
           thumbnail_url := "", created_at := 1 } : Post).id) =
    (bulk_rows_for_post c3_state
      { id := 1, account_id := 1, platform := "instagram", post_id := "p1",
        post_type := "reel", caption := "", published_at := "t1", url := "",
        thumbnail_url := "", created_at := 1 }).length :=
  latest_snapshot_resolution.2.1 c3_state 50
    { id := 1, account_id := 1, platform := "instagram", post_id := "p1",
      post_type := "reel", caption := "", published_at := "t1", url := "",
      thumbnail_url := "", created_at := 1 }
    (by decide) (by decide) (by decide)
